import Mathlib

/-!
Shallow embedding of `smartroll-backend/routes/attendance_routes.py`.

Python strings that the code computes on (MAC addresses, client IPs,
subnet prefixes) are modelled as `List Char`, so that the `str` methods
used by the code (`upper`, `strip`, `startswith`) are executable Lean
functions.  Timestamps are rationals (seconds since an arbitrary epoch):
`datetime` subtraction followed by `total_seconds() / 60` becomes exact
rational arithmetic.  Database tables are lists carried in a `DB` record;
SQLAlchemy queries become list lookups, and the two write endpoints are
functions from a `DB` to a result paired with the successor `DB`.
-/

namespace SmartRoll

/-- A Python string, as the list of its characters. -/
abbrev PyStr := List Char

/-- Python `str.upper()` (ASCII letters, which is all MAC addresses use). -/
def pyUpper (s : PyStr) : PyStr := s.map Char.toUpper

/-- Python `str.strip()`: drop leading and trailing whitespace. -/
def pyStrip (s : PyStr) : PyStr :=
  ((s.dropWhile Char.isWhitespace).reverse.dropWhile Char.isWhitespace).reverse

/-- Python `s.startswith(t)`: `t` is a literal leading substring of `s`. -/
def pyStartsWith : PyStr → PyStr → Bool
  | _, [] => true
  | [], _ :: _ => false
  | c :: s, d :: t => c == d && pyStartsWith s t

/-- Python `int()` on a real value truncates toward zero. -/
def pyInt (q : ℚ) : ℤ := if 0 ≤ q then ⌊q⌋ else ⌈q⌉

/-- Row of the `Session` table: `start_time`/`end_time` are timestamps in
seconds, `heartbeat_minutes`/`grace_minutes` integer columns. -/
structure Session where
  id : Nat
  start_time : ℚ
  end_time : Option ℚ
  heartbeat_minutes : ℤ
  grace_minutes : ℤ
deriving DecidableEq

/-- Row of the `Student` table. -/
structure Student where
  id : Nat
  name : String
  mac_address : PyStr
deriving DecidableEq

/-- Row of the `AttendanceLog` table (one heartbeat record). -/
structure AttendanceLog where
  session_id : Nat
  student_id : Nat
  mac : PyStr
  status : String
  timestamp : ℚ
deriving DecidableEq

/-- The database state: the four tables the routes touch.  An
`ApprovedSubnet` row only carries its prefix string, so that table is a
list of strings. -/
structure DB where
  sessions : List Session
  students : List Student
  logs : List AttendanceLog
  subnets : List PyStr
deriving DecidableEq

/-- `ApprovedSubnet.query.all()` plus the loop in `ip_in_approved_subnet`:
false for a falsy (absent or empty) client IP, otherwise true iff the IP
starts with some stored prefix, each prefix stripped of surrounding
whitespace first (`subnet.prefix.strip()`). -/
def ip_in_approved_subnet (subnets : List PyStr) (client_ip : Option PyStr) : Bool :=
  match client_ip with
  | none => false
  | some ip =>
    if ip = [] then false
    else subnets.any (fun p => pyStartsWith ip (pyStrip p))

/-- Descending-timestamp order used by `order_by(desc(AttendanceLog.timestamp))`. -/
def tsGE (a b : AttendanceLog) : Prop := b.timestamp ≤ a.timestamp

instance : DecidableRel tsGE := fun a b => inferInstanceAs (Decidable (b.timestamp ≤ a.timestamp))

instance : IsTotal AttendanceLog tsGE := ⟨fun a b => le_total b.timestamp a.timestamp⟩

instance : IsTrans AttendanceLog tsGE := ⟨fun _ _ _ hab hbc => le_trans hbc hab⟩

/-- `Session.query.get(session_id)`: primary-key lookup. -/
def findSession (sessions : List Session) (session_id : Nat) : Option Session :=
  sessions.find? (fun s => s.id == session_id)

/-- `Session.query.get` applied to a raw request value that may be absent. -/
def getSession (sessions : List Session) : Option Nat → Option Session
  | none => none
  | some sid => findSession sessions sid

/-- `AttendanceLog.query.filter_by(session_id, student_id).order_by(desc(timestamp)).first()`. -/
def lastHeartbeat (logs : List AttendanceLog) (session_id student_id : Nat) :
    Option AttendanceLog :=
  (List.insertionSort tsGE
    (logs.filter (fun l => l.session_id == session_id && l.student_id == student_id))).head?

/-- The dict returned by `is_student_checked_in`; `last_heartbeat` holds the
timestamp that the code renders with `isoformat()`. -/
structure EligibilityStatus where
  checked_in : Bool
  reason : String
  last_heartbeat : Option ℚ
  time_until_expiry : Option ℤ
deriving DecidableEq

/-- Python `if session.end_time and now > session.end_time`: a set end time
that is strictly in the past.  (A `datetime` value is always truthy.) -/
def pastEnd (now : ℚ) (end_time : Option ℚ) : Bool :=
  match end_time with
  | some e => decide (e < now)
  | none => false

/-- `is_student_checked_in(student_id, session_id)` with the clock value
`now` passed explicitly (`datetime.utcnow()` in the code). -/
def is_student_checked_in (now : ℚ) (sessions : List Session) (logs : List AttendanceLog)
    (student_id session_id : Nat) : EligibilityStatus :=
  match findSession sessions session_id with
  | none => ⟨false, "session_not_found", none, none⟩
  | some session =>
    if now < session.start_time then
      ⟨false, "session_not_started", none, none⟩
    else if pastEnd now session.end_time then
      ⟨false, "session_ended", none, none⟩
    else
      match lastHeartbeat logs session_id student_id with
      | none => ⟨false, "no_heartbeat_recorded", none, none⟩
      | some last_log =>
        let time_since_heartbeat : ℚ := (now - last_log.timestamp) / 60
        let max_allowed_interval : ℚ :=
          ((session.heartbeat_minutes + session.grace_minutes : ℤ) : ℚ)
        if time_since_heartbeat ≤ max_allowed_interval then
          ⟨true, "active", some last_log.timestamp,
            some (pyInt (max_allowed_interval - time_since_heartbeat))⟩
        else
          ⟨false, "heartbeat_expired", some last_log.timestamp, none⟩

/-- The Eligibility Engine with the database state threaded through: the
Python body only runs read queries (`query.get`, `filter_by ... first()`),
so the state it returns is the state it was given. -/
def evaluateS (now : ℚ) (db : DB) (student_id session_id : Nat) :
    EligibilityStatus × DB :=
  (is_student_checked_in now db.sessions db.logs student_id session_id, db)

/-- `(data.get("mac") or "").upper()`: an absent field is replaced by the
empty string before uppercasing. -/
def macFromRequest (mac0 : Option PyStr) : PyStr := pyUpper (mac0.getD [])

/-- Python truthiness of the raw `session_id` field: `None` and `0` are
falsy. -/
def truthyNat : Option Nat → Bool
  | none => false
  | some n => n != 0

/-- `client_ip = data.get("device_ip") or request.remote_addr`: a falsy
(absent or empty) self-reported address falls back to the peer address. -/
def effectiveClientIp (device_ip : Option PyStr) (remote_addr : PyStr) : PyStr :=
  match device_ip with
  | some ip => if ip = [] then remote_addr else ip
  | none => remote_addr

/-- The distinct responses of the `check_in` route. -/
inductive CheckInResult where
  | missing_fields
  | forbidden
  | unknown_device
  | session_not_found
  | session_not_started (start_time : ℚ)
  | session_ended (end_time : ℚ)
  | db_commit_failed
  | ok (student_name : String) (status : EligibilityStatus)
deriving DecidableEq

/-- Tail of `check_in` after all gates passed: build the log row, commit it
(`commitOk` models whether the commit raises), and on success re-read the
status.  `tLog` and `tStatus` are the later `datetime.utcnow()` readings. -/
def checkInFinish (tLog tStatus : ℚ) (commitOk : Bool) (mac : PyStr) (session_id : Nat)
    (student : Student) (db : DB) : CheckInResult × DB :=
  let log : AttendanceLog := ⟨session_id, student.id, mac, "Heartbeat", tLog⟩
  if commitOk then
    let db' : DB := ⟨db.sessions, db.students, db.logs ++ [log], db.subnets⟩
    (CheckInResult.ok student.name
      (is_student_checked_in tStatus db'.sessions db'.logs student.id session_id), db')
  else (CheckInResult.db_commit_failed, db)

/-- The `POST /attendance/check_in` handler.  `tGate` is the `utcnow()`
used for the session-window gates, `tLog`/`tStatus` the two later clock
readings; `mac0`, `session_id0`, `device_ip` are the JSON fields and
`remote_addr` the transport peer address. -/
def check_in (tGate tLog tStatus : ℚ) (commitOk : Bool) (mac0 : Option PyStr)
    (session_id0 : Option Nat) (device_ip : Option PyStr) (remote_addr : PyStr)
    (db : DB) : CheckInResult × DB :=
  let mac := macFromRequest mac0
  if mac = [] ∨ truthyNat session_id0 = false then (CheckInResult.missing_fields, db)
  else
    let session_id := session_id0.getD 0
    let client_ip := effectiveClientIp device_ip remote_addr
    if ip_in_approved_subnet db.subnets (some client_ip) = false then
      (CheckInResult.forbidden, db)
    else
      match db.students.find? (fun st => st.mac_address == mac) with
      | none => (CheckInResult.unknown_device, db)
      | some student =>
        match findSession db.sessions session_id with
        | none => (CheckInResult.session_not_found, db)
        | some s =>
          if tGate < s.start_time then
            (CheckInResult.session_not_started s.start_time, db)
          else if pastEnd tGate s.end_time then
            (CheckInResult.session_ended (s.end_time.getD 0), db)
          else checkInFinish tLog tStatus commitOk mac session_id student db

/-- The distinct responses of the `router_push` route. -/
inductive RouterPushResult where
  | unauthorized
  | session_not_found
  | session_not_started (start_time : ℚ)
  | session_ended (end_time : ℚ)
  | ok (count : Nat)
deriving DecidableEq

/-- One device entry of the push body: `dev.get("mac")` normalized and
resolved with `Student.query.filter_by(mac_address=mac).first()`. -/
def routerResolve (students : List Student) (dev : Option PyStr) : Option Student :=
  students.find? (fun st => st.mac_address == pyUpper (dev.getD []))

/-- The `for dev in devices` loop of `router_push`: `saved` counts matched
devices, `acc` the rows added to the pending transaction, and `stamp i` is
the `datetime.utcnow()` reading taken for the `i`-th saved row. -/
def routerLoop (stamp : Nat → ℚ) (students : List Student) (session_id : Nat) :
    List (Option PyStr) → Nat → List AttendanceLog → Nat × List AttendanceLog
  | [], saved, acc => (saved, acc)
  | dev :: rest, saved, acc =>
    match routerResolve students dev with
    | none => routerLoop stamp students session_id rest saved acc
    | some student =>
      routerLoop stamp students session_id rest (saved + 1)
        (acc ++ [⟨session_id, student.id, pyUpper (dev.getD []), "Heartbeat", stamp saved⟩])

/-- The `POST /attendance/router_push` handler.  `adminOk` is the result of
the external `require_admin_key()` check. -/
def router_push (now : ℚ) (stamp : Nat → ℚ) (adminOk : Bool) (session_id0 : Option Nat)
    (devices : List (Option PyStr)) (db : DB) : RouterPushResult × DB :=
  if adminOk = false then (RouterPushResult.unauthorized, db)
  else
    match getSession db.sessions session_id0 with
    | none => (RouterPushResult.session_not_found, db)
    | some s =>
      if now < s.start_time then
        (RouterPushResult.session_not_started s.start_time, db)
      else if pastEnd now s.end_time then
        (RouterPushResult.session_ended (s.end_time.getD 0), db)
      else
        let out := routerLoop stamp db.students (session_id0.getD 0) devices 0 []
        (RouterPushResult.ok out.1,
          ⟨db.sessions, db.students, db.logs ++ out.2, db.subnets⟩)

/-- The `GET /attendance/session/<session_id>` handler: all log rows of the
session, ordered by timestamp descending.  (The route then serializes the
`student_id`, `mac`, `status` and `timestamp` fields of each row.) -/
def session_logs (db : DB) (session_id : Nat) : List AttendanceLog :=
  List.insertionSort tsGE (db.logs.filter (fun l => l.session_id == session_id))

/-- Executable test for a strictly descending timestamp column, the order
the specification asserts for the session-log listing. -/
def strictlyDescByTimestamp : List AttendanceLog → Bool
  | [] => true
  | [_] => true
  | a :: b :: rest => decide (b.timestamp < a.timestamp) && strictlyDescByTimestamp (b :: rest)

/-! ### Concrete sample data used by witnesses and counterexamples -/

/-- Session 1: starts at second 0, ends at second 3600, heartbeat 5 min,
grace 2 min (the worked example of the specification, shifted to 0). -/
def sessA : Session := ⟨1, 0, some 3600, 5, 2⟩

/-- Session 2: starts at second 1000, no end time. -/
def sessB : Session := ⟨2, 1000, none, 5, 2⟩

/-- A heartbeat of student 1 in session 1 at second 1800 (minute 30). -/
def logA : AttendanceLog := ⟨1, 1, ['A', 'A'], "Heartbeat", 1800⟩

/-- Student 1 with canonical MAC "AA". -/
def stA : Student := ⟨1, "Ann", ['A', 'A']⟩

/-- A database with no rows at all. -/
def db_empty : DB := ⟨[], [], [], []⟩

/-- Session 1 with two heartbeat rows whose timestamps tie. -/
def db_ties : DB := ⟨[sessA], [], [⟨1, 1, ['A'], "Heartbeat", 0⟩, ⟨1, 2, ['B'], "Heartbeat", 0⟩], []⟩

/-- Session 1 and student 1, no logs, no approved subnets. -/
def db6 : DB := ⟨[sessA], [stA], [], []⟩

/-! ### C1 -/

/-- C1: for every student and session, the Eligibility Engine's reason is
one of the six enumerated strings, and `checked_in` is true iff the reason
is `active`. -/
theorem C1_reason_enum_checked_in_iff_active (now : ℚ) (sessions : List Session)
    (logs : List AttendanceLog) (student_id session_id : Nat) :
    ((is_student_checked_in now sessions logs student_id session_id).reason = "session_not_found" ∨
     (is_student_checked_in now sessions logs student_id session_id).reason = "session_not_started" ∨
     (is_student_checked_in now sessions logs student_id session_id).reason = "session_ended" ∨
     (is_student_checked_in now sessions logs student_id session_id).reason = "no_heartbeat_recorded" ∨
     (is_student_checked_in now sessions logs student_id session_id).reason = "heartbeat_expired" ∨
     (is_student_checked_in now sessions logs student_id session_id).reason = "active") ∧
    ((is_student_checked_in now sessions logs student_id session_id).checked_in = true ↔
     (is_student_checked_in now sessions logs student_id session_id).reason = "active") := by
  unfold is_student_checked_in
  cases findSession sessions session_id with
  | none => simp
  | some session =>
    by_cases h1 : now < session.start_time
    · simp [h1]
    · by_cases h2 : pastEnd now session.end_time
      · simp [h1, h2]
      · cases lastHeartbeat logs session_id student_id with
        | none => simp [h1, h2]
        | some last_log =>
          by_cases h3 : (now - last_log.timestamp) / 60 ≤
              ((session.heartbeat_minutes : ℚ) + (session.grace_minutes : ℚ))
          · simp [h1, h2, h3]
          · simp [h1, h2, h3]

/-! ### C10 -/

/-- C10: shape invariant of the Eligibility Engine result:
`time_until_expiry` is set iff the reason is `active`, and
`last_heartbeat` is set iff the reason is `active` or `heartbeat_expired`. -/
theorem C10_shape_invariant (now : ℚ) (sessions : List Session)
    (logs : List AttendanceLog) (student_id session_id : Nat) :
    ((is_student_checked_in now sessions logs student_id session_id).time_until_expiry ≠ none ↔
     (is_student_checked_in now sessions logs student_id session_id).reason = "active") ∧
    ((is_student_checked_in now sessions logs student_id session_id).last_heartbeat ≠ none ↔
     ((is_student_checked_in now sessions logs student_id session_id).reason = "active" ∨
      (is_student_checked_in now sessions logs student_id session_id).reason = "heartbeat_expired")) := by
  unfold is_student_checked_in
  cases findSession sessions session_id with
  | none => simp
  | some session =>
    by_cases h1 : now < session.start_time
    · simp [h1]
    · by_cases h2 : pastEnd now session.end_time
      · simp [h1, h2]
      · cases lastHeartbeat logs session_id student_id with
        | none => simp [h1, h2]
        | some last_log =>
          by_cases h3 : (now - last_log.timestamp) / 60 ≤
              ((session.heartbeat_minutes : ℚ) + (session.grace_minutes : ℚ))
          · simp [h1, h2, h3]
          · simp [h1, h2, h3]

/-! ### C9 -/

/-- C9: the Eligibility Engine is read-only and deterministic: threading
the store through a call returns it unchanged, and re-evaluating on the
state left behind by a first call (with no intervening write) yields the
identical result. -/
theorem C9_evaluate_pure_idempotent (now : ℚ) (db : DB) (student_id session_id : Nat) :
    (evaluateS now db student_id session_id).2 = db ∧
    (evaluateS now (evaluateS now db student_id session_id).2 student_id session_id).1 =
      (evaluateS now db student_id session_id).1 :=
  ⟨rfl, rfl⟩

/-! ### C3 -/

/-- C3: priority of the gates: when the session exists and has not yet
started, the result is `session_not_started` whatever the heartbeat
history (never `no_heartbeat_recorded`). -/
theorem C3_not_started_priority (now : ℚ) (sessions : List Session)
    (logs : List AttendanceLog) (student_id session_id : Nat) (session : Session)
    (hs : findSession sessions session_id = some session)
    (hstart : now < session.start_time) :
    is_student_checked_in now sessions logs student_id session_id =
      ⟨false, "session_not_started", none, none⟩ := by
  unfold is_student_checked_in
  rw [hs]
  simp [hstart]

/-- Witness for C3: session 2 starts at second 1000; at second 500 a
student with a recorded heartbeat still gets `session_not_started`. -/
theorem C3_witness :
    (findSession [sessB] 2 = some sessB ∧ (500 : ℚ) < sessB.start_time) ∧
    is_student_checked_in 500 [sessB] [⟨2, 1, ['A', 'A'], "Heartbeat", 100⟩] 1 2 =
      ⟨false, "session_not_started", none, none⟩ :=
  ⟨⟨rfl, by norm_num [sessB]⟩,
    C3_not_started_priority 500 [sessB] [⟨2, 1, ['A', 'A'], "Heartbeat", 100⟩] 1 2 sessB rfl
      (by norm_num [sessB])⟩

/-! ### C2 -/

/-- C2: with a found, open session and a most recent heartbeat at time `T`:
if the elapsed time since `T` is at most `window = heartbeat_minutes +
grace_minutes` (inclusive), the engine reports `active` with
`time_until_expiry = floor (window - elapsed)`, a non-negative integer
that is `0` exactly at the boundary `T + window`; if the elapsed time
strictly exceeds the window, it reports `heartbeat_expired` with no
`time_until_expiry`. -/
theorem C2_window_boundary (now : ℚ) (sessions : List Session)
    (logs : List AttendanceLog) (student_id session_id : Nat) (session : Session)
    (last_log : AttendanceLog)
    (hs : findSession sessions session_id = some session)
    (hstart : ¬ now < session.start_time)
    (hend : pastEnd now session.end_time = false) :
    lastHeartbeat logs session_id student_id = some last_log →
    ((now - last_log.timestamp) / 60 ≤
        (session.heartbeat_minutes : ℚ) + (session.grace_minutes : ℚ) →
      is_student_checked_in now sessions logs student_id session_id =
        ⟨true, "active", some last_log.timestamp,
          some ⌊(session.heartbeat_minutes : ℚ) + (session.grace_minutes : ℚ) -
                 (now - last_log.timestamp) / 60⌋⟩ ∧
      0 ≤ ⌊(session.heartbeat_minutes : ℚ) + (session.grace_minutes : ℚ) -
             (now - last_log.timestamp) / 60⌋ ∧
      ((now - last_log.timestamp) / 60 =
          (session.heartbeat_minutes : ℚ) + (session.grace_minutes : ℚ) →
        (is_student_checked_in now sessions logs student_id session_id).time_until_expiry =
          some 0)) ∧
    ((session.heartbeat_minutes : ℚ) + (session.grace_minutes : ℚ) <
        (now - last_log.timestamp) / 60 →
      is_student_checked_in now sessions logs student_id session_id =
        ⟨false, "heartbeat_expired", some last_log.timestamp, none⟩) := by
  intro hlog
  have heq : is_student_checked_in now sessions logs student_id session_id =
      (if (now - last_log.timestamp) / 60 ≤
          (session.heartbeat_minutes : ℚ) + (session.grace_minutes : ℚ) then
        ⟨true, "active", some last_log.timestamp,
          some (pyInt ((session.heartbeat_minutes : ℚ) + (session.grace_minutes : ℚ) -
            (now - last_log.timestamp) / 60))⟩
      else ⟨false, "heartbeat_expired", some last_log.timestamp, none⟩) := by
    unfold is_student_checked_in
    rw [hs]
    simp [hstart, hend, hlog]
  constructor
  · intro hle
    have hnn : (0 : ℚ) ≤ (session.heartbeat_minutes : ℚ) + (session.grace_minutes : ℚ) -
        (now - last_log.timestamp) / 60 := by linarith
    have hpy : pyInt ((session.heartbeat_minutes : ℚ) + (session.grace_minutes : ℚ) -
        (now - last_log.timestamp) / 60) =
        ⌊(session.heartbeat_minutes : ℚ) + (session.grace_minutes : ℚ) -
          (now - last_log.timestamp) / 60⌋ := by
      unfold pyInt
      exact if_pos hnn
    refine ⟨?_, Int.floor_nonneg.mpr hnn, ?_⟩
    · rw [heq, if_pos hle, hpy]
    · intro hex
      rw [heq, if_pos hle, hpy, hex]
      simp
  · intro hgt
    rw [heq, if_neg (not_le.mpr hgt)]

/-- Witness for C2 at the specification's worked example (shifted so the
session starts at second 0): heartbeat at minute 30, window 7 minutes;
evaluated at minute 36 the status is `active` with `time_until_expiry = 1`,
and evaluated at minute 38 it is `heartbeat_expired`. -/
theorem C2_witness :
    ((2160 : ℚ) - logA.timestamp) / 60 ≤
        (sessA.heartbeat_minutes : ℚ) + (sessA.grace_minutes : ℚ) ∧
    is_student_checked_in 2160 [sessA] [logA] 1 1 = ⟨true, "active", some 1800, some 1⟩ ∧
    (sessA.heartbeat_minutes : ℚ) + (sessA.grace_minutes : ℚ) <
        ((2280 : ℚ) - logA.timestamp) / 60 ∧
    is_student_checked_in 2280 [sessA] [logA] 1 1 =
      ⟨false, "heartbeat_expired", some 1800, none⟩ := by
  have h36 := C2_window_boundary 2160 [sessA] [logA] 1 1 sessA logA rfl
    (by norm_num [sessA]) (by simp [pastEnd, sessA]; norm_num) rfl
  have h38 := C2_window_boundary 2280 [sessA] [logA] 1 1 sessA logA rfl
    (by norm_num [sessA]) (by simp [pastEnd, sessA]; norm_num) rfl
  have hle : ((2160 : ℚ) - logA.timestamp) / 60 ≤
      (sessA.heartbeat_minutes : ℚ) + (sessA.grace_minutes : ℚ) := by norm_num [sessA, logA]
  have hgt : (sessA.heartbeat_minutes : ℚ) + (sessA.grace_minutes : ℚ) <
      ((2280 : ℚ) - logA.timestamp) / 60 := by norm_num [sessA, logA]
  refine ⟨hle, ?_, hgt, ?_⟩
  · rw [(h36.1 hle).1]
    norm_num [sessA, logA]
  · rw [h38.2 hgt]
    norm_num [logA]

/-! ### C5 -/

/-- Counterexample to C5 as stated: with the single approved prefix " A"
(leading space) and the address " AB", the prefix IS a literal string
prefix of the address, yet the check returns false — the code strips each
stored prefix before matching, so membership is not "some approved prefix
is a literal prefix of the address". -/
theorem C5_counterexample :
    ip_in_approved_subnet [[' ', 'A']] (some [' ', 'A', 'B']) = false ∧
    pyStartsWith [' ', 'A', 'B'] [' ', 'A'] = true ∧
    List.IsPrefix [' ', 'A'] [' ', 'A', 'B'] :=
  ⟨by decide, by decide, ⟨['B'], rfl⟩⟩

/-- C5 amended: `ip_in_approved_subnet` returns true iff the address is a
present, non-empty string and at least one approved prefix, after
stripping surrounding whitespace, is a literal prefix of it; an absent or
empty address always yields false, and with no configured prefixes every
address yields false (fail-closed), with no error conditions. -/
theorem C5_trusted_iff_stripped_match (subnets : List PyStr) (addr : Option PyStr) :
    (ip_in_approved_subnet subnets addr = true ↔
      ∃ a, addr = some a ∧ a ≠ [] ∧ ∃ p ∈ subnets, pyStartsWith a (pyStrip p) = true) ∧
    ip_in_approved_subnet subnets none = false ∧
    ip_in_approved_subnet subnets (some []) = false ∧
    (subnets = [] → ip_in_approved_subnet subnets addr = false) := by
  refine ⟨?_, rfl, by simp [ip_in_approved_subnet], ?_⟩
  · cases addr with
    | none => simp [ip_in_approved_subnet]
    | some a =>
      by_cases ha : a = []
      · subst ha
        simp [ip_in_approved_subnet]
      · simp [ip_in_approved_subnet, ha, List.any_eq_true]
  · intro hsub
    subst hsub
    cases addr with
    | none => rfl
    | some a => simp [ip_in_approved_subnet]

/-- Witness for C5 amended: with no prefixes any address is rejected, and
with the prefix "10." the address "10.5" is accepted, exhibiting the
existential. -/
theorem C5_witness :
    ip_in_approved_subnet [] (some ['X']) = false ∧
    (∃ a, (some ['1', '0', '.', '5'] : Option PyStr) = some a ∧ a ≠ [] ∧
      ∃ p ∈ [['1', '0', '.']], pyStartsWith a (pyStrip p) = true) :=
  ⟨(C5_trusted_iff_stripped_match [] (some ['X'])).2.2.2 rfl,
   (C5_trusted_iff_stripped_match [['1', '0', '.']] (some ['1', '0', '.', '5'])).1.mp
     (by decide)⟩

/-! ### check_in case analysis shared by C4 and C7 -/

/-- Every run of `check_in` either succeeds and appends exactly one log
row (all other tables untouched), or fails and leaves the whole database
unchanged. -/
theorem check_in_state_cases (tGate tLog tStatus : ℚ) (commitOk : Bool)
    (mac0 : Option PyStr) (session_id0 : Option Nat) (device_ip : Option PyStr)
    (remote_addr : PyStr) (db : DB) :
    (∃ nm st l,
        (check_in tGate tLog tStatus commitOk mac0 session_id0 device_ip remote_addr db).1 =
          CheckInResult.ok nm st ∧
        (check_in tGate tLog tStatus commitOk mac0 session_id0 device_ip remote_addr db).2 =
          ⟨db.sessions, db.students, db.logs ++ [l], db.subnets⟩) ∨
    ((∀ nm st,
        (check_in tGate tLog tStatus commitOk mac0 session_id0 device_ip remote_addr db).1 ≠
          CheckInResult.ok nm st) ∧
      (check_in tGate tLog tStatus commitOk mac0 session_id0 device_ip remote_addr db).2 = db) := by
  unfold check_in checkInFinish
  simp only
  repeat' split
  all_goals first
    | exact Or.inr ⟨by simp, rfl⟩
    | exact Or.inl ⟨_, _, _, rfl, rfl⟩

/-- When both request fields are truthy and the effective client address
fails the subnet check, `check_in` answers `forbidden` and does not touch
the database. -/
theorem check_in_forbidden_gate (tGate tLog tStatus : ℚ) (commitOk : Bool)
    (mac0 : Option PyStr) (session_id0 : Option Nat) (device_ip : Option PyStr)
    (remote_addr : PyStr) (db : DB)
    (h1 : macFromRequest mac0 ≠ []) (h2 : truthyNat session_id0 = true)
    (h3 : ip_in_approved_subnet db.subnets (some (effectiveClientIp device_ip remote_addr)) =
      false) :
    check_in tGate tLog tStatus commitOk mac0 session_id0 device_ip remote_addr db =
      (CheckInResult.forbidden, db) := by
  unfold check_in
  simp [h1, h2, h3]

/-- When either request field is falsy, `check_in` answers
`missing_fields` and does not touch the database. -/
theorem check_in_missing_gate (tGate tLog tStatus : ℚ) (commitOk : Bool)
    (mac0 : Option PyStr) (session_id0 : Option Nat) (device_ip : Option PyStr)
    (remote_addr : PyStr) (db : DB)
    (h : macFromRequest mac0 = [] ∨ truthyNat session_id0 = false) :
    check_in tGate tLog tStatus commitOk mac0 session_id0 device_ip remote_addr db =
      (CheckInResult.missing_fields, db) := by
  unfold check_in
  rcases h with h | h
  · simp [h]
  · simp [h]

/-- When both request fields are truthy, no branch of `check_in` answers
`missing_fields`. -/
theorem check_in_not_missing (tGate tLog tStatus : ℚ) (commitOk : Bool)
    (mac0 : Option PyStr) (session_id0 : Option Nat) (device_ip : Option PyStr)
    (remote_addr : PyStr) (db : DB)
    (h1 : ¬ macFromRequest mac0 = []) (h2 : truthyNat session_id0 = true) :
    (check_in tGate tLog tStatus commitOk mac0 session_id0 device_ip remote_addr db).1 ≠
      CheckInResult.missing_fields := by
  unfold check_in checkInFinish
  simp only [h2]
  repeat' split
  all_goals simp_all

/-! ### C4 -/

/-- Counterexample to C4 as stated: a check-in whose effective client
address ("9") is outside all approved prefixes (none are configured) but
whose `mac` field is the empty string returns `missing_fields`, not the
forbidden error, because the missing-fields gate runs first.  The store is
still left unchanged. -/
theorem C4_counterexample :
    (check_in 0 0 0 true (some []) (some 1) (some ['9']) [] db_empty).1 =
      CheckInResult.missing_fields ∧
    ip_in_approved_subnet db_empty.subnets (some (effectiveClientIp (some ['9']) [])) = false ∧
    CheckInResult.missing_fields ≠ CheckInResult.forbidden ∧
    (check_in 0 0 0 true (some []) (some 1) (some ['9']) [] db_empty).2 = db_empty :=
  ⟨rfl, rfl, by decide, rfl⟩

/-- C4 amended: each `check_in` call appends exactly one HeartbeatRecord
when it succeeds and appends zero records when any gate fails; and — once
the two request fields are present — a call whose effective client address
is outside all approved prefixes always returns the forbidden error and
leaves the store unchanged. -/
theorem C4_single_append_forbidden_gate (tGate tLog tStatus : ℚ) (commitOk : Bool)
    (mac0 : Option PyStr) (session_id0 : Option Nat) (device_ip : Option PyStr)
    (remote_addr : PyStr) (db : DB) :
    (∀ nm st,
      (check_in tGate tLog tStatus commitOk mac0 session_id0 device_ip remote_addr db).1 =
        CheckInResult.ok nm st →
      ∃ l,
        (check_in tGate tLog tStatus commitOk mac0 session_id0 device_ip remote_addr db).2 =
          ⟨db.sessions, db.students, db.logs ++ [l], db.subnets⟩) ∧
    ((∀ nm st,
        (check_in tGate tLog tStatus commitOk mac0 session_id0 device_ip remote_addr db).1 ≠
          CheckInResult.ok nm st) →
      (check_in tGate tLog tStatus commitOk mac0 session_id0 device_ip remote_addr db).2 = db) ∧
    (macFromRequest mac0 ≠ [] → truthyNat session_id0 = true →
      ip_in_approved_subnet db.subnets (some (effectiveClientIp device_ip remote_addr)) =
        false →
      check_in tGate tLog tStatus commitOk mac0 session_id0 device_ip remote_addr db =
        (CheckInResult.forbidden, db)) := by
  refine ⟨?_, ?_, ?_⟩
  · intro nm st h
    rcases check_in_state_cases tGate tLog tStatus commitOk mac0 session_id0 device_ip
        remote_addr db with ⟨nm', st', l, _, h2⟩ | ⟨hne, _⟩
    · exact ⟨l, h2⟩
    · exact absurd h (hne nm st)
  · intro hne
    rcases check_in_state_cases tGate tLog tStatus commitOk mac0 session_id0 device_ip
        remote_addr db with ⟨nm', st', l, h1, _⟩ | ⟨_, h2⟩
    · exact absurd h1 (hne nm' st')
    · exact h2
  · exact check_in_forbidden_gate tGate tLog tStatus commitOk mac0 session_id0 device_ip
      remote_addr db

/-- Witness for C4 amended: a well-formed check-in from the address "9"
with no approved prefixes configured is forbidden and changes nothing. -/
theorem C4_witness :
    (macFromRequest (some ['a', 'a']) ≠ [] ∧ truthyNat (some 1) = true ∧
      ip_in_approved_subnet db6.subnets (some (effectiveClientIp (some ['9']) [])) = false) ∧
    check_in 0 0 0 true (some ['a', 'a']) (some 1) (some ['9']) [] db6 =
      (CheckInResult.forbidden, db6) :=
  ⟨⟨by decide, rfl, rfl⟩,
   (C4_single_append_forbidden_gate 0 0 0 true (some ['a', 'a']) (some 1) (some ['9']) []
      db6).2.2 (by decide) rfl rfl⟩

/-! ### C7 -/

/-- Counterexample to C7 as stated: the code does not trim the device
address.  A `mac` field consisting of one space normalizes (uppercase and
trim) to the empty string, so the claim demands `missing_fields`; the code
keeps the untrimmed " " and proceeds past the missing-fields gate,
answering `forbidden` here instead. -/
theorem C7_counterexample :
    pyStrip (pyUpper [' ']) = [] ∧
    (check_in 0 0 0 true (some [' ']) (some 1) none [] db_empty).1 =
      CheckInResult.forbidden ∧
    CheckInResult.forbidden ≠ CheckInResult.missing_fields :=
  ⟨by decide, rfl, by decide⟩

/-- C7 amended: the device address is normalized by uppercasing only (no
trimming), and the call returns `missing_fields` — before any other gate,
leaving the store unchanged — exactly when the uppercased address is empty
or the session_id is absent or zero. -/
theorem C7_missing_fields_gate (tGate tLog tStatus : ℚ) (commitOk : Bool)
    (mac0 : Option PyStr) (session_id0 : Option Nat) (device_ip : Option PyStr)
    (remote_addr : PyStr) (db : DB) :
    macFromRequest mac0 = pyUpper (mac0.getD []) ∧
    ((check_in tGate tLog tStatus commitOk mac0 session_id0 device_ip remote_addr db).1 =
        CheckInResult.missing_fields ↔
      macFromRequest mac0 = [] ∨ truthyNat session_id0 = false) ∧
    (macFromRequest mac0 = [] ∨ truthyNat session_id0 = false →
      check_in tGate tLog tStatus commitOk mac0 session_id0 device_ip remote_addr db =
        (CheckInResult.missing_fields, db)) := by
  refine ⟨rfl, ⟨?_, ?_⟩, ?_⟩
  · intro h
    by_contra hc
    rw [not_or] at hc
    refine check_in_not_missing tGate tLog tStatus commitOk mac0 session_id0 device_ip
      remote_addr db hc.1 ?_ h
    cases htr : truthyNat session_id0 with
    | false => exact absurd htr hc.2
    | true => rfl
  · intro h
    rw [check_in_missing_gate tGate tLog tStatus commitOk mac0 session_id0 device_ip
      remote_addr db h]
  · exact check_in_missing_gate tGate tLog tStatus commitOk mac0 session_id0 device_ip
      remote_addr db

/-- Witness for C7 amended: an absent `mac` field yields `missing_fields`
with the database unchanged. -/
theorem C7_witness :
    macFromRequest none = [] ∧
    check_in 0 0 0 true none (some 1) none [] db6 = (CheckInResult.missing_fields, db6) :=
  ⟨rfl,
   (C7_missing_fields_gate 0 0 0 true none (some 1) none [] db6).2.2 (Or.inl rfl)⟩

/-! ### C6 -/

/-- The push loop counts and appends exactly the device entries that
resolve to a known student. -/
theorem routerLoop_spec (stamp : Nat → ℚ) (students : List Student) (session_id : Nat)
    (devices : List (Option PyStr)) :
    ∀ saved acc,
      (routerLoop stamp students session_id devices saved acc).1 =
        saved + devices.countP (fun d => (routerResolve students d).isSome) ∧
      (routerLoop stamp students session_id devices saved acc).2.length =
        acc.length + devices.countP (fun d => (routerResolve students d).isSome) := by
  induction devices with
  | nil => intro saved acc; simp [routerLoop]
  | cons dev rest ih =>
    intro saved acc
    cases h : routerResolve students dev with
    | none =>
      have := ih saved acc
      simp [routerLoop, h, List.countP_cons, this]
    | some student =>
      have := ih (saved + 1)
        (acc ++ [⟨session_id, student.id, pyUpper (dev.getD []), "Heartbeat", stamp saved⟩])
      simp [routerLoop, h, List.countP_cons, this]
      omega

/-- Counterexample to C6 as stated: an authorized push with one device
entry that resolves to a known student, but an absent `session_id`,
returns `session_not_found` and appends nothing, not `count = 1`. -/
theorem C6_counterexample :
    ([some (['a', 'a'] : PyStr)].countP (fun d => (routerResolve db6.students d).isSome)) = 1 ∧
    router_push 100 (fun _ => 100) true none [some ['a', 'a']] db6 =
      (RouterPushResult.session_not_found, db6) ∧
    RouterPushResult.session_not_found ≠ RouterPushResult.ok 1 :=
  ⟨rfl, rfl, by decide⟩

/-- C6 amended: provided the admin key check passes, the session resolves
and the current time is inside the session window, a push with N device
entries of which M resolve to known students (after address
normalization) appends exactly M HeartbeatRecords and returns
`count = M`; M is invariant under reordering of the entries, and
unresolved entries are skipped with no per-device error. -/
theorem C6_push_appends_matched (now : ℚ) (stamp : Nat → ℚ) (session_id0 : Option Nat)
    (db : DB) (s : Session)
    (hs : getSession db.sessions session_id0 = some s)
    (hstart : ¬ now < s.start_time)
    (hend : pastEnd now s.end_time = false) :
    ∀ devices : List (Option PyStr),
      (router_push now stamp true session_id0 devices db).1 =
        RouterPushResult.ok
          (devices.countP (fun d => (routerResolve db.students d).isSome)) ∧
      (router_push now stamp true session_id0 devices db).2.logs.length =
        db.logs.length + devices.countP (fun d => (routerResolve db.students d).isSome) ∧
      ∀ devices' : List (Option PyStr), devices.Perm devices' →
        devices'.countP (fun d => (routerResolve db.students d).isSome) =
          devices.countP (fun d => (routerResolve db.students d).isSome) := by
  intro devices
  have hloop := routerLoop_spec stamp db.students (session_id0.getD 0) devices 0 []
  have hpush : router_push now stamp true session_id0 devices db =
      (RouterPushResult.ok
        (routerLoop stamp db.students (session_id0.getD 0) devices 0 []).1,
       ⟨db.sessions, db.students,
        db.logs ++ (routerLoop stamp db.students (session_id0.getD 0) devices 0 []).2,
        db.subnets⟩) := by
    unfold router_push
    rw [hs]
    simp [hstart, hend]
  refine ⟨?_, ?_, ?_⟩
  · rw [hpush]
    simp [hloop.1]
  · rw [hpush]
    simp [hloop.2]
  · intro devices' hperm
    exact hperm.symm.countP_eq _

/-- Witness for C6 amended: session 1 is open at second 100; of the two
pushed devices, "aa" resolves to student 1 and "z" resolves to nobody, so
the push reports `count = 1` and appends one row. -/
theorem C6_witness :
    (getSession db6.sessions (some 1) = some sessA ∧ ¬ (100 : ℚ) < sessA.start_time ∧
      pastEnd 100 sessA.end_time = false) ∧
    ((router_push 100 (fun _ => 100) true (some 1) [some ['a', 'a'], some ['z']] db6).1 =
      RouterPushResult.ok
        ([some (['a', 'a'] : PyStr), some ['z']].countP
          (fun d => (routerResolve db6.students d).isSome)) ∧
     ([some (['a', 'a'] : PyStr), some ['z']].countP
        (fun d => (routerResolve db6.students d).isSome)) = 1 ∧
     (router_push 100 (fun _ => 100) true (some 1) [some ['a', 'a'], some ['z']] db6).2.logs.length =
       db6.logs.length + 1) := by
  have h := C6_push_appends_matched 100 (fun _ => 100) (some 1) db6 sessA rfl
    (by norm_num [sessA]) (by simp [pastEnd, sessA]; norm_num)
    [some ['a', 'a'], some ['z']]
  refine ⟨⟨rfl, by norm_num [sessA], by simp [pastEnd, sessA]; norm_num⟩, h.1, rfl, ?_⟩
  have h2 := h.2.1
  simpa using h2

/-! ### C8 -/

/-- Counterexample to C8 as stated: two heartbeat rows of session 1 carry
equal timestamps, so the listing (which contains both) cannot be strictly
descending; the claimed strict order fails while both records are
returned. -/
theorem C8_counterexample :
    strictlyDescByTimestamp (session_logs db_ties 1) = false ∧
    (session_logs db_ties 1).length = 2 :=
  ⟨by decide, rfl⟩

/-- C8 amended: the session log listing returns exactly the stored
records of the session (no filtering beyond the session, no pagination) in
descending — non-strict when timestamps tie — timestamp order, and the
empty list when the session has no records. -/
theorem C8_logs_sorted_complete (db : DB) (session_id : Nat) :
    List.Sorted tsGE (session_logs db session_id) ∧
    (session_logs db session_id).Perm
      (db.logs.filter (fun l => l.session_id == session_id)) ∧
    (db.logs.filter (fun l => l.session_id == session_id) = [] →
      session_logs db session_id = []) := by
  refine ⟨List.sorted_insertionSort tsGE _, List.perm_insertionSort tsGE _, ?_⟩
  intro h
  unfold session_logs
  rw [h]
  rfl

/-- Witness for C8 amended: a database with no rows lists no records for
session 5. -/
theorem C8_witness :
    db_empty.logs.filter (fun l => l.session_id == 5) = [] ∧
    session_logs db_empty 5 = [] :=
  ⟨rfl, (C8_logs_sorted_complete db_empty 5).2.2 rfl⟩

end SmartRoll
